import Mathlib

/-!
Verification of the Seplos BMS 2.0 frame codec and transaction engine
(`src/seplos.c`) against its natural-language specification.

The C code is embedded shallowly: machine integers become `Nat` with
explicit masking (`&&& 0xff`, `% 2 ^ 32`, ...) where C truncation or
wraparound matters, `bool *invalid` out-parameters become explicitly
threaded `Bool` values, the C logical-OR short circuit in `hex2b`/`hex4b`
is modelled exactly, and the two `read` calls of `bms_command` are fed by
an explicit `Transport` value while the transport calls performed are
recorded in a trace.  The potentially non-terminating response-validation
loop (its counter `j` is never incremented; the code bumps the unrelated
pointer `i`) is embedded with an explicit fuel argument.
-/

namespace Seplos

/-- ASCII codes of the table `static const char hex[] = "0123456789ABCDEF"`. -/
def hexTable : List Nat := [48, 49, 50, 51, 52, 53, 54, 55, 56, 57, 65, 66, 67, 68, 69, 70]

/-- One hex digit `hex[value & 0xf]` (seplos.c, `hex1`, lines 81-85). -/
def hexChar (v : Nat) : Nat := hexTable.getD (v &&& 0xf) 0

/-- `hex2` (seplos.c lines 87-92): two uppercase hex chars of a byte, high nibble first. -/
def hex2 (v : Nat) : List Nat := [hexChar ((v >>> 4) &&& 0xf), hexChar (v &&& 0xf)]

/-- `hex4` (seplos.c lines 94-101): four uppercase hex chars of a 16-bit value. -/
def hex4 (v : Nat) : List Nat :=
  [hexChar ((v >>> 12) &&& 0xf), hexChar ((v >>> 8) &&& 0xf),
   hexChar ((v >>> 4) &&& 0xf), hexChar (v &&& 0xf)]

/-- `hex1b` (seplos.c lines 103-116).  Returns the value together with the
flag the C code writes through `bool *invalid` (it only ever sets it).
Note the source returns `c - 'a' + 0x10` and `c - 'A' + 0x10` for letters,
i.e. `0x10 = 16`, not `10`. -/
def hex1b (c : Nat) : Nat × Bool :=
  if 48 ≤ c ∧ c ≤ 57 then (c - 48, false)
  else if 97 ≤ c ∧ c ≤ 102 then (c - 97 + 0x10, false)
  else if 65 ≤ c ∧ c ≤ 70 then (c - 65 + 0x10, false)
  else (0, true)

/-- `hex2b` (seplos.c lines 118-122): `(hex1b(a0) << 4) || hex1b(a1)`.
The C operator is the logical OR, which short-circuits: when the first
shifted nibble is nonzero the second `hex1b` call is not evaluated (so its
effect on `invalid` does not happen) and the result is `1`. -/
def hex2b (c0 c1 : Nat) (invalid : Bool) : Nat × Bool :=
  let p0 := hex1b c0
  let inv0 := invalid || p0.2
  if p0.1 <<< 4 ≠ 0 then (1, inv0)
  else
    let p1 := hex1b c1
    ((if p1.1 ≠ 0 then 1 else 0), inv0 || p1.2)

/-- `hex4b` (seplos.c lines 124-129): a chain of C logical ORs over the four
shifted nibbles, short-circuiting left to right. -/
def hex4b (c0 c1 c2 c3 : Nat) (invalid : Bool) : Nat × Bool :=
  let p0 := hex1b c0
  let inv0 := invalid || p0.2
  if p0.1 <<< 12 ≠ 0 then (1, inv0)
  else
    let p1 := hex1b c1
    let inv1 := inv0 || p1.2
    if p1.1 <<< 8 ≠ 0 then (1, inv1)
    else
      let p2 := hex1b c2
      let inv2 := inv1 || p2.2
      if p2.1 <<< 4 ≠ 0 then (1, inv2)
      else
        let p3 := hex1b c3
        ((if p3.1 ≠ 0 then 1 else 0), inv2 || p3.2)

/-- `length_checksum` (seplos.c lines 131-136).  `unsigned int` arithmetic:
`~x` on a 32-bit unsigned value is `2^32 - 1 - x`, the shift wraps modulo
`2^32`, and the result is masked to the top nibble position `0xf000`. -/
def length_checksum (length : Nat) : Nat :=
  let sum := ((length >>> 8) &&& 0xf) + ((length >>> 4) &&& 0xf) + (length &&& 0xf)
  ((((2 ^ 32 - (sum &&& 0xff)) % 2 ^ 32) <<< 12) % 2 ^ 32) &&& 0xf000

/-- Conversion of a (possibly signed-negative) `char` to `unsigned int`, as
happens in `sum += *data++` in `overall_checksum`: on the target platform
`char` is signed, so bytes `≥ 128` contribute `c - 256` converted to
unsigned, i.e. `c + 0xFFFFFF00`. -/
def scharToUInt (c : Nat) : Nat :=
  if c % 256 < 128 then c % 256 else c % 256 + 0xFFFFFF00

/-- `overall_checksum` (seplos.c lines 138-148): sum the first `length`
chars into an `unsigned int`, return `(~sum) + 1` (32-bit wraparound). -/
def overall_checksum (data : List Nat) (length : Nat) : Nat :=
  let sum := (data.take length).foldl (fun s c => (s + scharToUInt c) % 2 ^ 32) 0
  (2 ^ 32 - sum) % 2 ^ 32

/-- The binary header record `Seplos_2_0_binary` (seplos.c lines 34-40). -/
structure Seplos_2_0_binary where
  version : Nat
  address : Nat
  device : Nat
  function : Nat
  length : Nat
  deriving DecidableEq

/-- The ASCII frame struct `Seplos_2_0` (seplos.c lines 23-31); `info`
holds the info region, the checksum bytes and the terminator as stored by
`bms_command`. -/
structure Seplos_2_0 where
  start : Nat
  version : List Nat
  address : List Nat
  device : List Nat
  function : List Nat
  length : List Nat
  info : List Nat
  deriving DecidableEq

/-- The length field the encoder builds (seplos.c line 182):
`length_checksum(info_length * 2) | ((info_length * 2) & 0x0fff)`. -/
def request_length_field (info_length : Nat) : Nat :=
  length_checksum (info_length * 2) ||| ((info_length * 2) &&& 0x0fff)

/-- The binary request header `s` as filled in `bms_command`
(seplos.c lines 178-182); `uint8_t` assignments truncate modulo 256. -/
def request_sbin (address command info_length : Nat) : Seplos_2_0_binary :=
  { version := 0x20
    address := address % 256
    device := 0x46
    function := command % 256
    length := request_length_field info_length }

/-- The encoded request frame as assembled in `bms_command`
(seplos.c lines 184-200): hex header, the caller's info bytes copied
verbatim by `memcpy`, then `*(uint16_t *)i = overall_checksum(...)` stores
the 16-bit truncated checksum as two raw little-endian bytes, `i += 4`
skips two zero-initialized padding bytes, and a `'\r'` (13) byte follows. -/
def build_encoded (address command : Nat) (info : List Nat) : Seplos_2_0 :=
  let s := request_sbin address command info.length
  let header12 := hex2 s.version ++ hex2 s.address ++ hex2 s.device ++
    hex2 s.function ++ hex4 s.length
  let ck := overall_checksum (header12 ++ info) (info.length + 12) % 2 ^ 16
  { start := 126
    version := hex2 s.version
    address := hex2 s.address
    device := hex2 s.device
    function := hex2 s.function
    length := hex4 s.length
    info := info ++ [ck &&& 0xff, (ck >>> 8) &&& 0xff, 0, 0, 13] }

/-- The bytes handed to `write(fd, &encoded, info_length + 18)`
(seplos.c line 204): the struct prefix of length `info_length + 18`. -/
def encode_wire (address command : Nat) (info : List Nat) : List Nat :=
  let e := build_encoded address command info
  e.start :: (e.version ++ e.address ++ e.device ++ e.function ++ e.length ++ e.info)

/-- The header decode of `bms_command` (seplos.c lines 231-238).  The code
applies it to the fields of `encoded` — the request it just sent — not to
the response bytes in `result`; this definition takes the same struct the
code passes.  The `invalid` flag is threaded exactly as the C code threads
its `bool invalid` through the start-sentinel test and the five decodes. -/
def decode_binary (e : Seplos_2_0) (invalid : Bool) : Seplos_2_0_binary × Bool :=
  let inv0 := invalid || (e.start != 126)
  let pv := hex2b (e.version.getD 0 0) (e.version.getD 1 0) inv0
  let pa := hex2b (e.address.getD 0 0) (e.address.getD 1 0) pv.2
  let pd := hex2b (e.device.getD 0 0) (e.device.getD 1 0) pa.2
  let pf := hex2b (e.function.getD 0 0) (e.function.getD 1 0) pd.2
  let pl := hex4b (e.length.getD 0 0) (e.length.getD 1 0) (e.length.getD 2 0)
    (e.length.getD 3 0) pf.2
  ({ version := pv.1, address := pa.1, device := pd.1, function := pf.1, length := pl.1 },
   pl.2)

/-- The hex test applied to each inspected response byte
(seplos.c line 263): `(c >= '0' && c > '9') || (c >= 'a' && c <= 'f') ||
(c >= 'A' && c <= 'F')`.  Note the source's `c > '9'` where `c <= '9'` was
intended. -/
def hex_ok_resp (c : Nat) : Bool :=
  decide ((48 ≤ c ∧ 57 < c) ∨ (97 ≤ c ∧ c ≤ 102) ∨ (65 ≤ c ∧ c ≤ 70))

/-- The response-validation loop of `bms_command` (seplos.c lines 261-267):
`for (unsigned int j = 0; j < r.length + 4; i++) { ... }`.  The loop body
never changes `j` (the increment is applied to the unrelated pointer `i`),
so the recursive call keeps `j` unchanged; an explicit fuel argument makes
the embedding total.  `some false` is the early `return -1` on a byte that
fails `hex_ok_resp`, `some true` is normal loop exit, `none` means the
fuel ran out before the loop ended. -/
def validate_loop_from (infoAt : Nat → Nat) (bound j : Nat) : Nat → Option Bool
  | 0 => none
  | fuel + 1 =>
    if j < bound then
      if hex_ok_resp (infoAt j) then validate_loop_from infoAt bound j fuel
      else some false
    else some true

/-- Byte of the `result` struct at a given offset after the two reads: the
first 13 offsets are the header part of the first 18-byte read, offsets
from 13 on are `result->info[...]`. -/
def result_byte (hdr : List Nat) (infoAt : Nat → Nat) (off : Nat) : Nat :=
  if off < 13 then hdr.getD off 0 else infoAt (off - 13)

/-- The `n` bytes starting at `result->version` (struct offset 1), the
region `overall_checksum(result->version, ...)` reads (seplos.c line 270). -/
def response_body (hdr : List Nat) (infoAt : Nat → Nat) (n : Nat) : List Nat :=
  (List.range n).map fun k => result_byte hdr infoAt (1 + k)

/-- The checksum comparison of `bms_command` (seplos.c lines 269-273):
load `*(uint16_t *)&result->info[info_length]` (two raw little-endian
bytes at the offset given by the REQUEST's `info_length`) and compare it,
as `unsigned int`, with the untruncated 32-bit result of
`overall_checksum(result->version, info_length + 12)`. -/
def response_checksum_ok (hdr : List Nat) (infoAt : Nat → Nat) (info_length : Nat) : Bool :=
  let ck := infoAt info_length + 256 * infoAt (info_length + 1)
  ck == overall_checksum (response_body hdr infoAt (info_length + 12)) (info_length + 12)

/-- What the two `read` calls of one transaction deliver, and what `write`
returns.  `hdrRead` is the byte list the first `read(fd, result, 18)`
returns (its length is the `read` return value), `tailRead` likewise for
the second read. -/
structure Transport where
  writeRet : Nat
  hdrRead : List Nat
  tailRead : List Nat

/-- Transport operations performed by `bms_command`, in order:
`tcflush` (line 202), `write` with the bytes handed over (line 204),
`tcdrain` (line 209), and the two `read` calls with their requested byte
counts (lines 220 and 252). -/
inductive TraceEv where
  | flush : TraceEv
  | writeB : List Nat → TraceEv
  | drain : TraceEv
  | readN : Nat → TraceEv
  deriving DecidableEq

/-- Distinguishable `return -1` sites of `bms_command`, by their stderr
message: `headerShort`/`infoShort` are the `perror` sites after short
reads, `nonHex` the two non-hexadecimal messages, `lengthCode` the length
checksum message, `checksumMismatch` the overall checksum message. -/
inductive BmsErr where
  | headerShort : BmsErr
  | nonHex : BmsErr
  | lengthCode : BmsErr
  | infoShort : BmsErr
  | checksumMismatch : BmsErr
  deriving DecidableEq

/-- Result of one `bms_command` run: `abortAssert` is the failed
`assert(info_length < 4096)`, `exitShortWrite` the `exit(1)` after a short
write, `err` a `return -1` site, `ok` the final `return r.function`, and
`outOfFuel` means the validation loop had not terminated within the given
fuel. -/
inductive BmsOutcome where
  | abortAssert : BmsOutcome
  | exitShortWrite : BmsOutcome
  | err : BmsErr → BmsOutcome
  | ok : Nat → BmsOutcome
  | outOfFuel : BmsOutcome
  deriving DecidableEq

/-- Shallow embedding of `bms_command` (seplos.c lines 165-279).  Control
flow, the request encoding, the decode-from-the-request-buffer slip, the
length-checksum test on `s.length`, the two reads, the validation loop and
the final checksum comparison follow the source line by line; the
transport calls performed are collected in the returned trace. -/
def bms_command (address command : Nat) (info : List Nat) (t : Transport) (fuel : Nat) :
    BmsOutcome × List TraceEv :=
  let info_length := info.length
  let s := request_sbin address command info_length
  if info_length < 4096 then
    let tr1 := [TraceEv.flush, TraceEv.writeB (encode_wire address command info)]
    if t.writeRet < 18 then (.exitShortWrite, tr1)
    else
      let tr2 := tr1 ++ [TraceEv.drain, TraceEv.readN 18]
      if t.hdrRead.length ≠ 18 then (.err .headerShort, tr2)
      else
        let pr := decode_binary (build_encoded address command info) false
        let r := pr.1
        if pr.2 then (.err .nonHex, tr2)
        else if length_checksum (s.length &&& 0x0fff) ≠ (s.length &&& 0xf000) then
          (.err .lengthCode, tr2)
        else
          let tr3 := tr2 ++ [TraceEv.readN r.length]
          if t.tailRead.length ≠ r.length then (.err .infoShort, tr3)
          else
            let infoAt := fun j =>
              if j < 5 then t.hdrRead.getD (13 + j) 0
              else if j < 5 + t.tailRead.length then t.tailRead.getD (j - 5) 0
              else 0
            match validate_loop_from infoAt (r.length + 4) 0 fuel with
            | none => (.outOfFuel, tr3)
            | some false => (.err .nonHex, tr3)
            | some true =>
              if response_checksum_ok t.hdrRead infoAt info_length then (.ok r.function, tr3)
              else (.err .checksumMismatch, tr3)
  else (.abortAssert, [])

/-- The full transport call sequence of a transaction that performs both
reads, in source order. -/
def expected_trace (address command : Nat) (info : List Nat) : List TraceEv :=
  [TraceEv.flush, TraceEv.writeB (encode_wire address command info), TraceEv.drain,
   TraceEv.readN 18,
   TraceEv.readN ((decode_binary (build_encoded address command info) false).1).length]

/-- Uppercase ASCII hex character test, as the spec requires for emitted
checksum characters. -/
def is_uhex (c : Nat) : Bool := decide ((48 ≤ c ∧ c ≤ 57) ∨ (65 ≤ c ∧ c ≤ 70))

/-- A transport whose response header carries the given two function-field
characters; the rest of the response header is a well-formed echo
(`~ 20 00 46 __ E002`), the first response info byte is the digit 0
(ASCII 48), and the tail read delivers one byte. -/
def t_resp (fchars : List Nat) : Transport :=
  { writeRet := 19
    hdrRead := [126, 50, 48, 48, 48, 52, 54] ++ fchars ++ [69, 48, 48, 50, 48, 48, 48, 48, 48]
    tailRead := [48] }

/-- A transport that accepts no bytes on write. -/
def t_zero : Transport := { writeRet := 0, hdrRead := [], tailRead := [] }

/-- A transport whose response has the byte `G` (71) as the first byte of
the info region (struct offset 13 of the 18-byte header read). -/
def t_g : Transport :=
  { writeRet := 19
    hdrRead := [126, 50, 48, 48, 48, 52, 54, 48, 48, 69, 48, 48, 50, 71, 48, 48, 48, 48]
    tailRead := [48] }

/-- A transport whose response header carries the length field `0001`,
whose length-checksum nibble 0 is wrong (the checksum of `0x001` is `0xF`). -/
def t_badlen : Transport :=
  { writeRet := 19
    hdrRead := [126, 50, 48, 48, 48, 52, 54, 48, 48, 48, 48, 48, 49, 48, 48, 48, 48, 48]
    tailRead := [48] }

/-- Response header for the checksum claim: an echo frame `~ 20 00 46 00
E002`, whose info region starts with the digit 0 (ASCII 48) followed by
the two little-endian bytes `0x6D 0xFD` of the 16-bit truncation of the
overall checksum of its own 13-byte body. -/
def c6hdr : List Nat :=
  [126, 50, 48, 48, 48, 52, 54, 48, 48, 69, 48, 48, 50, 48, 109, 253, 48, 48]

/-- Contents of `result->info` for the checksum claim: info byte 48,
then the checksum bytes 109 and 253. -/
def c6info : Nat → Nat := fun j => [48, 109, 253, 48, 48].getD j 0

/-- C1: the status `bms_command` surfaces is not decoded from the received
response frame's function field.  Two transactions whose responses differ
exactly in the function field (`00` versus `E2`) produce identical results
and traces, and the function value the engine decodes (from the request
buffer `encoded`, through the logical-OR `hex2b`) is 1 — matching neither
response. -/
theorem c1_status_ignores_response :
    bms_command 0 79 [0] (t_resp [48, 48]) 10 = bms_command 0 79 [0] (t_resp [69, 50]) 10 ∧
    ((decode_binary (build_encoded 0 79 [0]) false).1).function = 1 := by decide

/-- C2: decoding the frame produced by encoding the request
(address 0, function `0x4F`, info `[0x00]`) does not give back the
request: the decoded version is 1, not `0x20`, because `hex2b`/`hex4b`
combine nibbles with the C logical OR. -/
theorem c2_decode_encode_not_id :
    ((decode_binary (build_encoded 0 79 [0]) false).1).version = 1 ∧
    (decode_binary (build_encoded 0 79 [0]) false).1 ≠ request_sbin 0 79 1 := by decide

/-- C3: the nibble decoder maps `A` (65) and `a` (97) to 16, not 10
(the source adds `0x10` instead of `10`), and the two-character decoder
collapses the pair `41` to 1 instead of `0x41` (logical OR instead of
bitwise OR). -/
theorem c3_nibble_decode_values :
    hex1b 65 = (16, false) ∧ hex1b 97 = (16, false) ∧ (hex1b 65).1 ≠ 10 ∧
    hex2b 52 49 false = (1, false) ∧ (hex2b 52 49 false).1 ≠ 0x41 := by decide

/-- C4: for the one-byte request info `[0x00]` the emitted wire frame is
19 bytes — `info_length + 18`, not `18 + 2·len(info) = 20` — and the byte
following the info region is the raw binary checksum byte 131 (`0x83`),
not an uppercase hex-ASCII character. -/
theorem c4_wire_length_and_checksum_bytes :
    (encode_wire 0 79 [0]).length = 19 ∧ (19 : Nat) ≠ 18 + 2 * 1 ∧
    (encode_wire 0 79 [0]).getD 14 0 = 131 ∧ is_uhex 131 = false := by decide

/-- Every transaction whose payload passes the assert performs the flush
and hands the encoded frame to `write`; on a transport that accepts no
bytes the run stops there. -/
theorem bms_command_flush_and_write (address command fuel : Nat) (info : List Nat)
    (h : info.length < 4096) :
    bms_command address command info t_zero fuel =
      (BmsOutcome.exitShortWrite,
        [TraceEv.flush, TraceEv.writeB (encode_wire address command info)]) := by
  unfold bms_command
  dsimp only
  rw [if_pos h]
  simp [t_zero]

/-- C5: for a 2048-byte info sequence (4096 nibbles, exceeding `0xFFF`)
`bms_command` does not stop with a payload error: it flushes the transport
and hands the 2066-byte encoded frame to `write`, while the declared
nibble count is silently truncated to 0 by the `& 0x0fff` mask; there is
no `PayloadTooLarge` path in the code at all. -/
theorem c5_oversize_touches_transport :
    bms_command 0 66 (List.replicate 2048 0) t_zero 1 =
      (BmsOutcome.exitShortWrite,
        [TraceEv.flush, TraceEv.writeB (encode_wire 0 66 (List.replicate 2048 0))]) ∧
    request_length_field 2048 = 0 := by
  constructor
  · exact bms_command_flush_and_write 0 66 1 (List.replicate 2048 0)
      (by rw [List.length_replicate]; norm_num)
  · decide

/-- C6: a received frame whose 16-bit checksum field holds exactly the
16-bit truncation of the overall checksum of its own body does not pass
the code's comparison: the code compares the 16-bit field against the
untruncated 32-bit value `(~sum) + 1`, so the equality the claim states
fails on a correctly check-summed frame. -/
theorem c6_checksum_compare_fails_valid_frame :
    c6info 1 + 256 * c6info 2 =
      overall_checksum (response_body c6hdr c6info 13) 13 % 2 ^ 16 ∧
    response_checksum_ok c6hdr c6info 1 = false := by decide

/-- C7: the response hex test accepts `G` (71) — its first disjunct reads
`c >= '0' && c > '9'`, true for every byte at or above `:` — and rejects
the digit `0` (48); consequently a response with `G` as the first info
byte never produces the non-hexadecimal error (the run exhausts its fuel
in the validation loop instead). -/
theorem c7_hex_predicate_accepts_G :
    hex_ok_resp 71 = true ∧ hex_ok_resp 48 = false ∧
    (bms_command 0 79 [0] t_g 10).1 ≠ BmsOutcome.err BmsErr.nonHex := by decide

/-- C8: the received length field `0x0001` violates the length-checksum
invariant (its checksum nibble is 0 where `length_checksum` gives
`0xF000`), yet the engine does not reject it: the check on receipt is
computed from `s.length` — the request's own length field, which satisfies
the invariant by construction — so the run fails later with the non-hex
error instead of a length-checksum error. -/
theorem c8_length_check_uses_sent_field :
    length_checksum (1 &&& 0x0fff) ≠ (1 &&& 0xf000) ∧
    length_checksum (request_length_field 1 &&& 0x0fff) =
      (request_length_field 1 &&& 0xf000) ∧
    (bms_command 0 79 [0] t_badlen 10).1 = BmsOutcome.err BmsErr.nonHex := by decide

/-- C9: every execution of `bms_command` performs a prefix of the
transport call sequence flush, write, drain, read(18), read(tail) — so no
call precedes the flush and none falls between the drain and the first
read — and an execution whose trace has all five events performs exactly
that sequence. -/
theorem c9_transport_call_order (address command : Nat) (info : List Nat) (t : Transport)
    (fuel : Nat) :
    (bms_command address command info t fuel).2 <+: expected_trace address command info ∧
    ((bms_command address command info t fuel).2.length = 5 →
      (bms_command address command info t fuel).2 = expected_trace address command info) := by
  have hp : (bms_command address command info t fuel).2 <+:
      expected_trace address command info := by
    unfold bms_command expected_trace
    dsimp only
    repeat' split
    all_goals exact ⟨_, rfl⟩
  refine ⟨hp, fun hlen => ?_⟩
  obtain ⟨u, hu⟩ := hp
  have h5 : (expected_trace address command info).length = 5 := rfl
  have hsum : (bms_command address command info t fuel).2.length + u.length = 5 := by
    rw [← h5, ← hu, List.length_append]
  rw [hlen] at hsum
  have hu0 : u.length = 0 := by omega
  have hnil : u = [] := List.eq_nil_of_length_eq_zero hu0
  subst hnil
  simpa using hu

/-- Witness for C9: the trace-order theorem applied to a concrete
transaction (address 0, function `0x4F`, info `[0x00]`) on a concrete
transport. -/
theorem c9_transport_call_order_witness :
    (bms_command 0 79 [0] (t_resp [48, 48]) 10).2 <+: expected_trace 0 79 [0] ∧
    ((bms_command 0 79 [0] (t_resp [48, 48]) 10).2.length = 5 →
      (bms_command 0 79 [0] (t_resp [48, 48]) 10).2 = expected_trace 0 79 [0]) :=
  c9_transport_call_order 0 79 [0] (t_resp [48, 48]) 10

/-- C10: the response-validation loop does not terminate when the byte it
inspects passes the (buggy) hex test: with loop bound `r.length + 4 = 5`
and the info region holding `A` (65), no amount of fuel makes the loop
exit, because the counter `j` is never incremented. -/
theorem c10_validate_loop_diverges :
    ∀ fuel, validate_loop_from (fun _ => 65) 5 0 fuel = none := by
  intro fuel
  induction fuel with
  | zero => rfl
  | succ n ih =>
    have h : validate_loop_from (fun _ => 65) 5 0 (n + 1) =
        validate_loop_from (fun _ => 65) 5 0 n := rfl
    exact h.trans ih

end Seplos
